import Mathlib

/-!
Verification of the intraday trading decision engine.

Shallow embedding of the decision & position-lifecycle engine of the
`trading_bot` package (`strategy/strategy.py`, `execution/execution.py`,
`main.py`).  Prices, volumes and indicator values are modelled as exact
rationals (`ℚ`); a pandas `NaN` is modelled as `Option.none`; python dicts
are modelled as association lists keyed by `String`.
-/

namespace TradingBot

/-- One OHLCV candle (a row of the dataframes built in `main.py`; the
`open` column is called `open_` because `open` is a Lean keyword).
Timestamps are minutes since an arbitrary epoch. -/
structure Candle where
  timestamp : ℕ
  open_ : ℚ
  high : ℚ
  low : ℚ
  close : ℚ
  volume : ℚ
  oi : ℚ
deriving Repr, DecidableEq, Inhabited

/-- The `DayType` enum from `strategy.py`. -/
inductive DayType where
  | BULLISH_TREND
  | BEARISH_TREND
  | SIDEWAYS_BULL_TRAP
  | SIDEWAYS_BEAR_TRAP
  | SIDEWAYS_CHOPPY
deriving Repr, DecidableEq, Inhabited

/-- Function `classify_day_type` from `strategy.py` (lines 21-44): opening price
against the hunter zone plus the put-call ratio, first match wins. -/
def classify_day_type (opening_price hunter_zone_high hunter_zone_low pcr : ℚ) : DayType :=
  if opening_price > hunter_zone_high ∧ pcr > 1.2 then DayType.BULLISH_TREND
  else if opening_price < hunter_zone_low ∧ pcr < 0.7 then DayType.BEARISH_TREND
  else if opening_price > hunter_zone_high ∧ pcr < 0.9 then DayType.SIDEWAYS_BULL_TRAP
  else if opening_price < hunter_zone_low ∧ pcr > 1.1 then DayType.SIDEWAYS_BEAR_TRAP
  else DayType.SIDEWAYS_CHOPPY

/-- The `market_data` of one option leg; `oi` is `none` when the API reports
no open interest (python `None`, read as `... or 0`). -/
structure MarketData where
  oi : Option ℚ
deriving Repr, DecidableEq

/-- One leg (call or put) of a strike entry of the option chain. -/
structure OptionLeg where
  instrument_key : String
  market_data : Option MarketData
deriving Repr, DecidableEq

/-- One strike entry of an option chain snapshot, as consumed by
`calculate_pcr` and `get_atm_option_instrument`. -/
structure StrikeData where
  strike_price : ℤ
  call_options : Option OptionLeg
  put_options : Option OptionLeg
deriving Repr, DecidableEq

/-- The open-interest contribution of one leg: `md.oi or 0` guarded by the
two truthiness checks in `calculate_pcr`. -/
def leg_oi (leg : Option OptionLeg) : ℚ :=
  match leg with
  | none => 0
  | some l =>
    match l.market_data with
    | none => 0
    | some md => md.oi.getD 0

/-- Total put open interest accumulated by `calculate_pcr`. -/
def total_put_oi (option_chain : List StrikeData) : ℚ :=
  (option_chain.map (fun s => leg_oi s.put_options)).foldl (· + ·) 0

/-- Total call open interest accumulated by `calculate_pcr`. -/
def total_call_oi (option_chain : List StrikeData) : ℚ :=
  (option_chain.map (fun s => leg_oi s.call_options)).foldl (· + ·) 0

/-- Function `calculate_pcr` from `strategy.py` (lines 403-421): neutral 1.0 on an
empty/unavailable chain, sentinel 100.0 when total call OI is zero,
otherwise the ratio of total put OI to total call OI. -/
def calculate_pcr (option_chain : List StrikeData) : ℚ :=
  if option_chain = [] then 1
  else if total_call_oi option_chain = 0 then 100
  else total_put_oi option_chain / total_call_oi option_chain

/-- Function `calculate_microstructure_score` from `strategy.py` (lines 448-472).
The four indicator inputs are `Option ℚ`; `none` models a pandas `NaN`
(`pd.isna`), in which case the score is 0. -/
def calculate_microstructure_score (price : ℚ)
    (evwma_1m evwma_5m evwma_1m_slope evwma_5m_slope : Option ℚ) : ℤ :=
  match evwma_1m, evwma_5m, evwma_1m_slope, evwma_5m_slope with
  | some e1, some e5, some s1, some s5 =>
      (if price > e5 then 5 else if price < e5 then -5 else 0)
    + (if price > e1 then 1 else if price < e1 then -1 else 0)
    + (if s5 > 0 then 5 else if s5 < 0 then -5 else 0)
    + (if s1 > 0 then 1 else if s1 < 0 then -1 else 0)
  | _, _, _, _ => 0

/-- The `multipliers` dict of `calculate_stop_loss` with its `.get`
default of 1.0. -/
def multipliers (trade_type : String) : ℚ :=
  if trade_type = "Scalp" then 0.7
  else if trade_type = "Hunter" then 1.2
  else if trade_type = "P2P Trend" then 1.5
  else 1

/-- Function `calculate_stop_loss` from `strategy.py` (lines 474-485); `atr = none`
models `pd.notna(atr)` failing, which falls back to 1% of the entry
price as the volatility buffer. -/
def calculate_stop_loss (atr : Option ℚ) (trade_type : String) (last_swing : ℚ)
    (direction : String) (entry_price : ℚ) : ℚ :=
  let multiplier := multipliers trade_type
  let volatility_buffer :=
    match atr with
    | some a => multiplier * a
    | none => entry_price * 0.01
  if direction = "BULL" then last_swing - volatility_buffer
  else last_swing + volatility_buffer

/-- Function `calculate_probability_score` from `strategy.py` (lines 487-496). -/
def calculate_probability_score (pcr_alignment index_sync score_force value_area : Bool) : ℕ :=
  (if pcr_alignment then 20 else 0) + (if index_sync then 30 else 0)
  + (if score_force then 30 else 0) + (if value_area then 20 else 0)

/-- Minimum of a list of rationals (used for the `.min()` of a nonempty
pandas series; 0 on an empty list, which `find_recent_swing` never hits
because of its own emptiness guard). -/
def qmin : List ℚ → ℚ
  | [] => 0
  | x :: xs => xs.foldl min x

/-- Maximum of a list of rationals (the `.max()` of a pandas series). -/
def qmax : List ℚ → ℚ
  | [] => 0
  | x :: xs => xs.foldl max x

/-- Function `find_recent_swing` from `strategy.py` (lines 506-515): minimum low
(BULL) or maximum high (BEAR) over the last `n` candles, 0 on an empty
frame. -/
def find_recent_swing (df : List Candle) (direction : String) (n : ℕ := 20) : ℚ :=
  if df = [] then 0
  else
    let df_slice := df.drop (df.length - n)
    if direction = "BULL" then qmin (df_slice.map (·.low))
    else qmax (df_slice.map (·.high))

/-- The `df.iloc[-lookback-1:-1]` window of the pivot-volume detectors:
the `lookback` candles immediately before the latest one. -/
def prior_window (df : List Candle) (lookback : ℕ) : List Candle :=
  df.dropLast.drop (df.dropLast.length - lookback)

/-- Maximum of a list of rationals as an `Option` (`none` on the empty
list, matching a pandas `.max()` on an empty series guarded by
`.empty`). -/
def qmax? : List ℚ → Option ℚ
  | [] => none
  | x :: xs => some (xs.foldl max x)

/-- Function `detect_pocket_pivot_volume` from `strategy.py` (lines 517-528). -/
def detect_pocket_pivot_volume (df : List Candle) (lookback : ℕ := 10) : Bool :=
  if df.length < lookback + 1 then false
  else
    match df.getLast? with
    | none => false
    | some latest_bar =>
      if latest_bar.close ≤ latest_bar.open_ then false
      else
        let down_volume :=
          ((prior_window df lookback).filter (fun b => b.close < b.open_)).map (·.volume)
        match qmax? down_volume with
        | none => false
        | some m => latest_bar.volume > m

/-- Function `detect_pivot_negative_volume` from `strategy.py` (lines 530-541). -/
def detect_pivot_negative_volume (df : List Candle) (lookback : ℕ := 10) : Bool :=
  if df.length < lookback + 1 then false
  else
    match df.getLast? with
    | none => false
    | some latest_bar =>
      if latest_bar.close ≥ latest_bar.open_ then false
      else
        let up_volume :=
          ((prior_window df lookback).filter (fun b => b.close > b.open_)).map (·.volume)
        match qmax? up_volume with
        | none => false
        | some m => latest_bar.volume > m

/-- Function `detect_accumulation` from `strategy.py` (lines 543-553).  Note that
the averages run over all candles except the latest (`iloc[:-1]`), not
over a bounded lookback window. -/
def detect_accumulation (df : List Candle) : Bool :=
  if df.length < 2 then false
  else
    match df.getLast? with
    | none => false
    | some latest_bar =>
      let prior := df.dropLast
      let range_val := latest_bar.high - latest_bar.low
      let avg_range := ((prior.map (fun b => b.high - b.low)).foldl (· + ·) 0) / (prior.length : ℚ)
      let avg_volume := ((prior.map (·.volume)).foldl (· + ·) 0) / (prior.length : ℚ)
      decide (latest_bar.volume > avg_volume * 1.5 ∧ range_val < avg_range * 0.7
        ∧ latest_bar.close > latest_bar.open_)

/-- Function `detect_distribution` from `strategy.py` (lines 555-565), the
mirror image of `detect_accumulation` with a down close. -/
def detect_distribution (df : List Candle) : Bool :=
  if df.length < 2 then false
  else
    match df.getLast? with
    | none => false
    | some latest_bar =>
      let prior := df.dropLast
      let range_val := latest_bar.high - latest_bar.low
      let avg_range := ((prior.map (fun b => b.high - b.low)).foldl (· + ·) 0) / (prior.length : ℚ)
      let avg_volume := ((prior.map (·.volume)).foldl (· + ·) 0) / (prior.length : ℚ)
      decide (latest_bar.volume > avg_volume * 1.5 ∧ range_val < avg_range * 0.7
        ∧ latest_bar.close < latest_bar.open_)

/-! ## Indicator plumbing used by `main.py` and the templates -/

/-- Python `round` (half to even), used by `find_atm_strike`. -/
def pyRound (q : ℚ) : ℤ :=
  let f := ⌊q⌋
  let r := q - (f : ℚ)
  if r < 1/2 then f
  else if 1/2 < r then f + 1
  else if f % 2 = 0 then f else f + 1

/-- Function `find_atm_strike` from `strategy.py` (lines 60-64):
`int(round(price / 50) * 50)`. -/
def find_atm_strike (price : ℚ) : ℤ :=
  pyRound (price / 50) * 50

/-- Function `get_atm_option_instrument` from `strategy.py` (lines 66-87): scans the
chain for the matching strike; a matching strike whose required leg is
absent is skipped and the scan continues. -/
def get_atm_option_instrument : List StrikeData → ℤ → String → Option String
  | [], _, _ => none
  | strike_data :: rest, atm_strike, direction =>
    if strike_data.strike_price = atm_strike ∧ direction = "BULL"
        ∧ strike_data.call_options.isSome then
      strike_data.call_options.map (·.instrument_key)
    else if strike_data.strike_price = atm_strike ∧ direction = "BEAR"
        ∧ strike_data.put_options.isSome then
      strike_data.put_options.map (·.instrument_key)
    else get_atm_option_instrument rest atm_strike direction

/-- The true-range series underlying `ta.atr`: the first row has no
previous close and is `NaN` (`none`). -/
def true_ranges : List Candle → List (Option ℚ)
  | [] => []
  | c :: rest => none :: true_ranges_from c rest
where
  true_ranges_from : Candle → List Candle → List (Option ℚ)
  | _, [] => []
  | prev, c :: rest =>
    some (max (c.high - c.low) (max |c.high - prev.close| |c.low - prev.close|))
      :: true_ranges_from c rest

/-- Last value of a pandas `ewm(alpha=1/length, min_periods=length).mean()`
(the RMA smoothing inside `ta.atr`): exponentially weighted mean with
`adjust=True`, skipping `NaN` observations while still decaying their
weight, `none` until `length` observations have been seen. -/
def ewm_rma_last (length : ℕ) (xs : List (Option ℚ)) : Option ℚ :=
  let α : ℚ := 1 / (length : ℚ)
  let s := xs.foldl
    (fun (acc : ℚ × ℚ × ℕ) x =>
      match x with
      | some v => ((1 - α) * acc.1 + v, (1 - α) * acc.2.1 + 1, acc.2.2 + 1)
      | none => ((1 - α) * acc.1, (1 - α) * acc.2.1, acc.2.2))
    (0, 0, 0)
  if s.2.2 ≥ length ∧ s.2.1 ≠ 0 then some (s.1 / s.2.1) else none

/-- The last-row ATR value produced by `calculate_atr` in `strategy.py`
(lines 498-504), i.e. `ta.atr(high, low, close, length)[-1]`; `none`
models `NaN` (insufficient history) and the empty frame, for which
`calculate_atr` returns the frame without an `atr` column. -/
def calculate_atr (df : List Candle) (length : ℕ := 14) : Option ℚ :=
  if df = [] then none else ewm_rma_last length (true_ranges df)

/-- The value `ta.vwma(close, volume, length)` evaluated at the last row of `df`:
rolling sum of `close*volume` over the last `length` rows divided by the
rolling sum of `volume`; `none` when fewer than `length` rows exist or
all the windowed volumes sum to 0 (a pandas `0/0 = NaN`; the source's
volumes are non-negative). -/
def vwma_at (df : List Candle) (length : ℕ) : Option ℚ :=
  if df.length < length then none
  else
    let w := df.drop (df.length - length)
    let vs := (w.map (·.volume)).foldl (· + ·) 0
    let cvs := (w.map (fun b => b.close * b.volume)).foldl (· + ·) 0
    if vs = 0 then none else some (cvs / vs)

/-- The `(evwma.iloc[-1], evwma_slope.iloc[-1])` pair produced by
`calculate_evwma` in `strategy.py` (lines 423-446): both columns are
`NA` when fewer than `length` rows exist; the slope is the diff of the
last two vwma values and is `NaN` when the penultimate one is. -/
def calculate_evwma_last (df : List Candle) (length : ℕ := 20) : Option ℚ × Option ℚ :=
  if df.length < length then (none, none)
  else
    let e := vwma_at df length
    let ep := vwma_at df.dropLast length
    (e, match e, ep with
        | some a, some b => some (a - b)
        | _, _ => none)

/-- The `df.resample('5min', on='timestamp').agg(...)` grouping helper: packs
consecutive candles whose timestamps fall in the same 5-minute bin
(timestamps are minutes and arrive strictly increasing). -/
def groupBy5m : List Candle → List (List Candle)
  | [] => []
  | c :: rest =>
    match groupBy5m rest with
    | [] => [[c]]
    | [] :: gs => [c] :: [] :: gs
    | (d :: g) :: gs =>
      if c.timestamp / 5 = d.timestamp / 5 then (c :: d :: g) :: gs
      else [c] :: (d :: g) :: gs

/-- Aggregation of one 5-minute bin: open = first, high = max, low = min,
close = last, volume = sum (the `agg` dict in `execute_strategy`). -/
def agg5m : List Candle → Candle
  | [] => default
  | c :: g =>
    { timestamp := 5 * (c.timestamp / 5)
      open_ := c.open_
      high := qmax ((c :: g).map (·.high))
      low := qmin ((c :: g).map (·.low))
      close := ((c :: g).getLast (by simp)).close
      volume := ((c :: g).map (·.volume)).foldl (· + ·) 0
      oi := 0 }

/-- The 5-minute frame `df_5m` built in `execute_strategy` (`main.py`
lines 324-326); empty bins are removed by the `dropna()`. -/
def resample5m (df : List Candle) : List Candle :=
  (groupBy5m df).map agg5m

/-! ## Order execution (`execution/execution.py`) -/

/-- A `place_order` invocation recorded against the order gateway. -/
structure OrderRecord where
  quantity : ℕ
  price : ℚ
  instrument_token : String
  order_type : String
  transaction_type : String
  tag : String
  timestamp : ℕ
deriving Repr, DecidableEq

/-- An entry of `OrderManager.paper_positions` (built by `place_order` in
paper mode). -/
structure PaperPosition where
  order_id : ℕ
  instrument_key : String
  transaction_type : String
  entry_price : ℚ
  entry_time : ℕ
  stop_loss_price : ℚ
  direction : String
deriving Repr, DecidableEq

/-- A closed trade recorded by `close_paper_position`. -/
structure Trade where
  instrument_key : String
  entry_price : ℚ
  exit_price : ℚ
  pnl : ℚ
  entry_time : ℕ
  exit_time : ℕ
  direction : String
deriving Repr, DecidableEq

/-- Mutable state of `OrderManager`.  `uuid.uuid4()` order ids are
modelled by a counter; `orders_log` records every `place_order` call so
that "no order was placed" is expressible. -/
structure OMState where
  paper_positions : List (String × PaperPosition)
  paper_trades : List Trade
  orders_log : List OrderRecord
  next_order_id : ℕ
deriving Repr, DecidableEq

/-- Python-dict lookup on an association list. -/
def dictGet {α : Type} (d : List (String × α)) (k : String) : Option α :=
  (d.find? (fun p => p.1 == k)).map (·.2)

/-- Python-dict assignment (replaces any existing binding of the key). -/
def dictSet {α : Type} (d : List (String × α)) (k : String) (v : α) : List (String × α) :=
  (k, v) :: d.filter (fun p => p.1 != k)

/-- Python-dict `del`. -/
def dictDel {α : Type} (d : List (String × α)) (k : String) : List (String × α) :=
  d.filter (fun p => p.1 != k)

/-- Static configuration (`config.py`), overridable as in
`TradingBot.__init__`. -/
structure Config where
  SCORE_THRESHOLD : ℤ
  PROBABILITY_THRESHOLD : ℕ
  PAPER_TRADING : Bool
  USE_ADVANCED_VOLUME_ANALYSIS : Bool

/-- The values in `config.py`. -/
def defaultConfig : Config :=
  { SCORE_THRESHOLD := 7
    PROBABILITY_THRESHOLD := 75
    PAPER_TRADING := true
    USE_ADVANCED_VOLUME_ANALYSIS := true }

/-- External collaborators of the core (data handler lookups, option-chain
retrieval, the live-order transport): everything `execute_strategy`
reads but the core does not own. -/
structure Env where
  instrument_to_symbol_map : String → Option String
  expiry_dates : String → Option String
  future_of : String → Option String
  get_option_chain : String → String → List StrikeData
  live_order_id : Option ℕ

/-- Method `OrderManager.place_order` (`execution.py` lines 20-63).  In paper
mode it books a mirror paper position keyed by the traded token and
returns a fresh order id; in live mode the response comes from the
transport (`none` models an `ApiException`).  Every call is logged. -/
def place_order (env : Env) (cfg : Config) (st : OMState) (quantity : ℕ) (price : ℚ)
    (instrument_token order_type transaction_type tag : String) (timestamp : ℕ) :
    OMState × Option ℕ :=
  let st := { st with orders_log := st.orders_log ++
    [{ quantity := quantity, price := price, instrument_token := instrument_token,
       order_type := order_type, transaction_type := transaction_type,
       tag := tag, timestamp := timestamp }] }
  if cfg.PAPER_TRADING then
    let order_id := st.next_order_id
    let pos : PaperPosition :=
      { order_id := order_id
        instrument_key := instrument_token
        transaction_type := transaction_type
        entry_price := price
        entry_time := timestamp
        stop_loss_price := 0
        direction := if transaction_type = "BUY" then "BULL" else "BEAR" }
    ({ st with paper_positions := dictSet st.paper_positions instrument_token pos
               next_order_id := order_id + 1 }, some order_id)
  else
    (st, env.live_order_id)

/-- Method `OrderManager.place_gtt_order` (`execution.py` lines 107-139), paper
branch: updates the stop of the mirrored paper position when present. -/
def place_gtt_order (cfg : Config) (st : OMState) (instrument_token : String)
    (trigger_price : ℚ) : OMState :=
  if cfg.PAPER_TRADING then
    match dictGet st.paper_positions instrument_token with
    | some pos =>
      let pos' := { pos with stop_loss_price := trigger_price }
      { st with paper_positions := dictSet st.paper_positions instrument_token pos' }
    | none => st
  else st

/-- Method `OrderManager.close_paper_position` (`execution.py` lines 147-173):
computes the pnl, appends exactly one immutable `Trade`, and removes the
paper position; a no-op when the key is absent. -/
def close_paper_position (st : OMState) (instrument_key : String) (exit_price : ℚ)
    (exit_time : ℕ) : OMState :=
  match dictGet st.paper_positions instrument_key with
  | none => st
  | some position =>
    let pnl :=
      if position.direction = "BULL" then exit_price - position.entry_price
      else position.entry_price - exit_price
    { st with
      paper_trades := st.paper_trades ++
        [{ instrument_key := position.instrument_key
           entry_price := position.entry_price
           exit_price := exit_price
           pnl := pnl
           entry_time := position.entry_time
           exit_time := exit_time
           direction := position.direction }]
      paper_positions := dictDel st.paper_positions instrument_key }

/-! ## The orchestrator (`main.py`) -/

/-- An entry of `TradingBot.open_positions` as written by the tactical
templates (no `entry_time` field, unlike the order manager's mirror). -/
structure BotPosition where
  order_id : ℕ
  instrument_key : String
  transaction_type : String
  entry_price : ℚ
  stop_loss_price : ℚ
  direction : String
deriving Repr, DecidableEq

/-- A hunter zone `{high, low}` entry of `TradingBot.hunter_zone`. -/
structure HunterZone where
  high : ℚ
  low : ℚ
deriving Repr, DecidableEq

/-- The per-instrument mutable maps owned by `TradingBot`, plus the order
manager it drives.  (In paper mode `main.py` aliases `open_positions` to
the order manager's `paper_positions`; the two are kept as separate
fields here — the claims under proof never depend on the aliasing, and
`paper_trades` is only ever written by `close_paper_position`.) -/
structure BotState where
  hunter_zone : List (String × HunterZone)
  open_positions : List (String × BotPosition)
  latest_volume_cache : List (String × ℚ)
  om : OMState
deriving Repr, DecidableEq

/-- Method `TradingBot.monitor_stop_loss` (`main.py` lines 177-205): when the
current price crosses the protective level against the position it
places a market SELL exit through the order manager and deletes the
entry from `open_positions`.  It does not call `close_paper_position`. -/
def monitor_stop_loss (env : Env) (cfg : Config) (st : BotState) (instrument_key : String)
    (position : BotPosition) (current_price : ℚ) (timestamp : ℕ) : BotState :=
  let stop_loss_price := position.stop_loss_price
  if (position.direction = "BULL" ∧ current_price ≤ stop_loss_price)
      ∨ (position.direction = "BEAR" ∧ current_price ≥ stop_loss_price) then
    let r := place_order env cfg st.om 1 0 position.instrument_key "MARKET" "SELL"
      "stop_loss_exit" timestamp
    { st with om := r.1, open_positions := dictDel st.open_positions instrument_key }
  else st

/-- The probability score computed inline by `HunterTrade.execute`
(`strategy.py` lines 112-122): pcr alignment, the always-true
`index_sync` placeholder, score force `|score| > 10`, and price inside
the hunter zone. -/
def hunterProbability (score : ℤ) (pcr price : ℚ) (hz : HunterZone) : ℕ :=
  calculate_probability_score
    (decide ((pcr > 1 ∧ score > 0) ∨ (pcr < 1 ∧ score < 0)))
    true
    (decide (|score| > 10))
    (decide (price > hz.low ∧ price < hz.high))

/-- The entry bookkeeping shared by the templates after a successful
`place_order`: compute ATR, the recent swing and the stop, place the
protective GTT order, record the bot position under the underlying
instrument key. -/
def template_entry (env : Env) (cfg : Config) (st : BotState) (instrument_key : String)
    (option_instrument_key : String) (direction : String) (trade_type : String)
    (tag : String) (price : ℚ) (df : List Candle) (timestamp : ℕ) : BotState :=
  let r := place_order env cfg st.om 1 0 option_instrument_key "MARKET" "BUY" tag timestamp
  match r.2 with
  | none => { st with om := r.1 }
  | some order_id =>
    let atr := calculate_atr df
    let last_swing := find_recent_swing df direction
    let stop_loss_price := calculate_stop_loss atr trade_type last_swing direction price
    let om2 := place_gtt_order cfg r.1 option_instrument_key stop_loss_price
    let pos : BotPosition :=
      { order_id := order_id
        instrument_key := option_instrument_key
        transaction_type := "BUY"
        entry_price := price
        stop_loss_price := stop_loss_price
        direction := direction }
    { st with om := om2, open_positions := dictSet st.open_positions instrument_key pos }

/-- Method `HunterTrade.execute` (`strategy.py` lines 96-178): score gate,
probability gate (threshold `config.PROBABILITY_THRESHOLD`), ATM option
lookup, then entry. -/
def hunter_execute (env : Env) (cfg : Config) (st : BotState) (score : ℤ) (price : ℚ)
    (instrument_key : String) (option_chain : List StrikeData) (hz : HunterZone)
    (pcr : ℚ) (df : List Candle) (timestamp : ℕ) : BotState :=
  if |score| ≥ cfg.SCORE_THRESHOLD then
    if hunterProbability score pcr price hz < cfg.PROBABILITY_THRESHOLD then st
    else
      let direction := if score > 0 then "BULL" else "BEAR"
      match get_atm_option_instrument option_chain (find_atm_strike price) direction with
      | none => st
      | some option_instrument_key =>
        template_entry env cfg st instrument_key option_instrument_key direction
          "Hunter" "hunter_trade" price df timestamp
  else st

/-- The exit bookkeeping shared by `P2PTrend` and `MeanReversion`: market
SELL of the held option, `close_paper_position` with the triggering
price/time, and deletion from `open_positions`. -/
def template_exit (env : Env) (cfg : Config) (st : BotState) (instrument_key : String)
    (position : BotPosition) (tag : String) (price : ℚ) (timestamp : ℕ) : BotState :=
  let r := place_order env cfg st.om 1 0 position.instrument_key "MARKET" "SELL" tag timestamp
  let om2 := close_paper_position r.1 position.instrument_key price timestamp
  { st with om := om2, open_positions := dictDel st.open_positions instrument_key }

/-- Method `P2PTrend.execute` (`strategy.py` lines 187-278): exit when the score
flips against the held direction, otherwise enter on `|score|` at or
above the threshold. -/
def p2p_execute (env : Env) (cfg : Config) (st : BotState) (score : ℤ) (price : ℚ)
    (instrument_key : String) (option_chain : List StrikeData) (df : List Candle)
    (timestamp : ℕ) : BotState :=
  match dictGet st.open_positions instrument_key with
  | some position =>
    if (score > 0 ∧ position.direction = "BEAR") ∨ (score < 0 ∧ position.direction = "BULL") then
      template_exit env cfg st instrument_key position "p2p_trend_exit" price timestamp
    else st
  | none =>
    if |score| ≥ cfg.SCORE_THRESHOLD then
      let direction := if score > 0 then "BULL" else "BEAR"
      let atm_strike := find_atm_strike price
      match get_atm_option_instrument option_chain atm_strike direction with
      | none => st
      | some option_instrument_key =>
        template_entry env cfg st instrument_key option_instrument_key direction
          "P2P Trend" "p2p_trend" price df timestamp
    else st

/-- Method `MeanReversion.execute` (`strategy.py` lines 299-401): skip when the
EVWMAs are `NaN`; exit on reversion through the 1-minute EVWMA; enter a
fade when price stretches 1% beyond the 5-minute EVWMA (the entry uses
the `"Scalp"` ATR multiplier, as in the source). -/
def mean_reversion_execute (env : Env) (cfg : Config) (st : BotState) (price : ℚ)
    (instrument_key : String) (option_chain : List StrikeData)
    (evwma_1m evwma_5m : Option ℚ) (df : List Candle) (timestamp : ℕ) : BotState :=
  match evwma_1m, evwma_5m with
  | some e1, some e5 =>
    (match dictGet st.open_positions instrument_key with
     | some position =>
       if (position.direction = "BULL" ∧ price ≥ e1) ∨ (position.direction = "BEAR" ∧ price ≤ e1) then
         template_exit env cfg st instrument_key position "mean_reversion_exit" price timestamp
       else st
     | none =>
       let direction : Option String :=
         if price > e5 * 1.01 then some "BEAR"
         else if price < e5 * 0.99 then some "BULL"
         else none
       match direction with
       | none => st
       | some dir =>
         let atm_strike := find_atm_strike price
         match get_atm_option_instrument option_chain atm_strike dir with
         | none => st
         | some option_instrument_key =>
           template_entry env cfg st instrument_key option_instrument_key dir
             "Scalp" "mean_reversion" price df timestamp)
  | _, _ => st

/-- Character-list prefix test (python `str.startswith`). -/
def listIsPrefix : List Char → List Char → Bool
  | [], _ => true
  | _ :: _, [] => false
  | a :: as, b :: bs => a == b && listIsPrefix as bs

/-- Character-list substring test (python `in` on strings). -/
def listHasInfix (p : List Char) : List Char → Bool
  | [] => listIsPrefix p []
  | c :: rest => listIsPrefix p (c :: rest) || listHasInfix p rest

/-- Python `pattern in s` for strings. -/
def strContains (s pat : String) : Bool :=
  listHasInfix pat.data s.data

/-- Python `s.startswith(pattern)`. -/
def strStartsWith (s pat : String) : Bool :=
  listIsPrefix pat.data s.data

/-- The symbol lookup of `execute_strategy` (`main.py` lines 280-290):
`NSE_FO`-prefixed keys go through the inverted instrument map, index
keys are matched by substring. -/
def symbolOf (env : Env) (instrument_key : String) : Option String :=
  if strStartsWith instrument_key "NSE_FO" then
    env.instrument_to_symbol_map instrument_key
  else if strContains instrument_key "BANKNIFTY" || strContains instrument_key "Nifty Bank" then
    some "BANKNIFTY"
  else if strContains instrument_key "NIFTY" || strContains instrument_key "Nifty 50" then
    some "NIFTY"
  else none

/-- The spot-index volume substitution of `execute_strategy` (`main.py`
lines 294-299): when a spot index reports zero volume on its latest
candle, substitute the cached volume of its futures contract. -/
def effectiveDf (env : Env) (st : BotState) (instrument_key : String)
    (df : List Candle) : List Candle :=
  if (instrument_key = "NSE_INDEX|Nifty 50" ∨ instrument_key = "NSE_INDEX|Nifty Bank")
      ∧ (df.getLast?.map (·.volume)) = some 0 then
    match (symbolOf env instrument_key).bind env.future_of with
    | some future_key =>
      match dictGet st.latest_volume_cache future_key with
      | some future_volume =>
        match df.getLast? with
        | some last => df.dropLast ++ [{ last with volume := future_volume }]
        | none => df
      | none => df
    | none => df
  else df

/-- The microstructure score computed by the decision cycle: the
1-minute EVWMA pair on the (volume-substituted) frame, the 5-minute
EVWMA pair on its resampled frame, and the latest close, combined by
`calculate_microstructure_score` (`main.py` lines 319-338). -/
def pipelineScore (env : Env) (st : BotState) (instrument_key : String)
    (df : List Candle) : ℤ :=
  let df' := effectiveDf env st instrument_key df
  let e1 := calculate_evwma_last df' 20
  let df_5m := resample5m df'
  let e5 := calculate_evwma_last df_5m 20
  let price := (df'.getLast?.map (·.close)).getD 0
  calculate_microstructure_score price e1.1 e5.1 e1.2 e5.2

/-- The tactical-template dispatch of `_initialize_modules` plus the
`strategy.execute(...)` call at the end of `execute_strategy`: trends
run `P2PTrend`, traps run `HunterTrade`, chop runs `MeanReversion`. -/
def dispatch_strategy (env : Env) (cfg : Config) (st : BotState) (day_type : DayType)
    (score : ℤ) (price : ℚ) (instrument_key : String) (option_chain : List StrikeData)
    (hz : HunterZone) (pcr : ℚ) (evwma_1m evwma_5m : Option ℚ) (df : List Candle)
    (timestamp : ℕ) : BotState :=
  match day_type with
  | DayType.BULLISH_TREND | DayType.BEARISH_TREND =>
    p2p_execute env cfg st score price instrument_key option_chain df timestamp
  | DayType.SIDEWAYS_BULL_TRAP | DayType.SIDEWAYS_BEAR_TRAP =>
    hunter_execute env cfg st score price instrument_key option_chain hz pcr df timestamp
  | DayType.SIDEWAYS_CHOPPY =>
    mean_reversion_execute env cfg st price instrument_key option_chain
      evwma_1m evwma_5m df timestamp

/-- Method `TradingBot.execute_strategy` (`main.py` lines 262-364): one full
decision cycle for one instrument.  Every guard that skips the
instrument (`return`) leaves the bot state unchanged. -/
def execute_strategy (env : Env) (cfg : Config) (st : BotState) (instrument_key : String)
    (df : List Candle) (timestamp : ℕ) (option_chain? : Option (List StrikeData)) : BotState :=
  if df = [] then st
  else if (dictGet st.open_positions instrument_key).isSome then st
  else
    match dictGet st.hunter_zone instrument_key with
    | none => st
    | some hunter_zone =>
      let opening_price := (df.head?.map (·.open_)).getD 0
      let symbol := symbolOf env instrument_key
      let df' := effectiveDf env st instrument_key df
      match symbol.bind env.expiry_dates with
      | none => st
      | some expiry_date =>
        let underlying_instrument :=
          if symbol = some "NIFTY" then "NSE_INDEX|Nifty 50" else "NSE_INDEX|Nifty Bank"
        let option_chain :=
          match option_chain? with
          | some oc => oc
          | none => env.get_option_chain underlying_instrument expiry_date
        if option_chain = [] then st
        else
          let pcr := calculate_pcr option_chain
          let day_type := classify_day_type opening_price hunter_zone.high hunter_zone.low pcr
          let e1 := calculate_evwma_last df' 20
          let df_5m := resample5m df'
          let e5 := calculate_evwma_last df_5m 20
          if df_5m = [] then st
          else
            let price := (df'.getLast?.map (·.close)).getD 0
            let score := calculate_microstructure_score price e1.1 e5.1 e1.2 e5.2
            if cfg.USE_ADVANCED_VOLUME_ANALYSIS then
              let ppv := detect_pocket_pivot_volume df'
              let pnv := detect_pivot_negative_volume df'
              let accumulation := detect_accumulation df'
              let distribution := detect_distribution df'
              if (score > 0 ∧ (ppv || accumulation) = false)
                  ∨ (score < 0 ∧ (pnv || distribution) = false) then st
              else
                dispatch_strategy env cfg st day_type score price instrument_key
                  option_chain hunter_zone pcr e1.1 e5.1 df' timestamp
            else
              dispatch_strategy env cfg st day_type score price instrument_key
                option_chain hunter_zone pcr e1.1 e5.1 df' timestamp

/-! ## Concrete inputs used by witnesses and counterexamples -/

/-- An environment in which every external lookup fails. -/
def env0 : Env :=
  { instrument_to_symbol_map := fun _ => none
    expiry_dates := fun _ => none
    future_of := fun _ => none
    get_option_chain := fun _ _ => []
    live_order_id := none }

/-- An empty bot state. -/
def st0 : BotState :=
  { hunter_zone := [], open_positions := [], latest_volume_cache := [], om := ⟨[], [], [], 0⟩ }

/-- The option chain of the spec's PCR example:
`[{put_oi:100, call_oi:50}, {put_oi:200, call_oi:100}]`. -/
def examplePcrChain : List StrikeData :=
  [⟨100, some ⟨"C1", some ⟨some 50⟩⟩, some ⟨"P1", some ⟨some 100⟩⟩⟩,
   ⟨200, some ⟨"C2", some ⟨some 100⟩⟩, some ⟨"P2", some ⟨some 200⟩⟩⟩]

/-- A nonempty option chain whose total call open interest is zero. -/
def zeroCallChain : List StrikeData :=
  [⟨100, some ⟨"C1", some ⟨some 0⟩⟩, some ⟨"P1", some ⟨some 100⟩⟩⟩]

/-! ## C4: day-type classification -/

/-- C4: `classify_day_type` is a pure total function applying the five
rules in order with first match winning, including the spec's worked
examples `classify_day_type(105,100,90,0.8) = SIDEWAYS_BULL_TRAP` and
`classify_day_type(95,100,90,1.0) = SIDEWAYS_CHOPPY`. -/
theorem classify_day_type_c4 :
    (∀ o hi lo p : ℚ,
      ((o > hi ∧ p > 1.2) → classify_day_type o hi lo p = DayType.BULLISH_TREND)
      ∧ (¬(o > hi ∧ p > 1.2) → (o < lo ∧ p < 0.7) →
          classify_day_type o hi lo p = DayType.BEARISH_TREND)
      ∧ (¬(o > hi ∧ p > 1.2) → ¬(o < lo ∧ p < 0.7) → (o > hi ∧ p < 0.9) →
          classify_day_type o hi lo p = DayType.SIDEWAYS_BULL_TRAP)
      ∧ (¬(o > hi ∧ p > 1.2) → ¬(o < lo ∧ p < 0.7) → ¬(o > hi ∧ p < 0.9) →
          (o < lo ∧ p > 1.1) → classify_day_type o hi lo p = DayType.SIDEWAYS_BEAR_TRAP)
      ∧ (¬(o > hi ∧ p > 1.2) → ¬(o < lo ∧ p < 0.7) → ¬(o > hi ∧ p < 0.9) →
          ¬(o < lo ∧ p > 1.1) → classify_day_type o hi lo p = DayType.SIDEWAYS_CHOPPY))
    ∧ classify_day_type 105 100 90 0.8 = DayType.SIDEWAYS_BULL_TRAP
    ∧ classify_day_type 95 100 90 1 = DayType.SIDEWAYS_CHOPPY := by
  refine ⟨fun o hi lo p => ⟨fun h1 => ?_, fun n1 h2 => ?_, fun n1 n2 h3 => ?_,
    fun n1 n2 n3 h4 => ?_, fun n1 n2 n3 n4 => ?_⟩,
    by with_unfolding_all decide, by with_unfolding_all decide⟩
  · simp only [classify_day_type, if_pos h1]
  · simp only [classify_day_type, if_neg n1, if_pos h2]
  · simp only [classify_day_type, if_neg n1, if_neg n2, if_pos h3]
  · simp only [classify_day_type, if_neg n1, if_neg n2, if_neg n3, if_pos h4]
  · simp only [classify_day_type, if_neg n1, if_neg n2, if_neg n3, if_neg n4]

/-- Witness for C4 at a concrete input (the spec's bullish example). -/
theorem classify_day_type_c4_witness :
    classify_day_type 105 100 90 (13/10) = DayType.BULLISH_TREND :=
  (classify_day_type_c4.1 105 100 90 (13/10)).1 (by with_unfolding_all decide)

/-! ## C5: microstructure confluence score -/

/-- C5: the microstructure score is always within `[-12, 12]`, is the sum
of the four `±5/±1` confluence terms when all indicator inputs are
defined, is exactly 0 when any indicator input is undefined, and matches
the spec's three worked examples. -/
theorem calculate_microstructure_score_c5 :
    (∀ (price : ℚ) (e1 e5 s1 s5 : Option ℚ),
      -12 ≤ calculate_microstructure_score price e1 e5 s1 s5
      ∧ calculate_microstructure_score price e1 e5 s1 s5 ≤ 12)
    ∧ (∀ (price e1 e5 s1 s5 : ℚ),
      calculate_microstructure_score price (some e1) (some e5) (some s1) (some s5)
        = (if price > e5 then 5 else if price < e5 then -5 else 0)
        + (if price > e1 then 1 else if price < e1 then -1 else 0)
        + (if s5 > 0 then 5 else if s5 < 0 then -5 else 0)
        + (if s1 > 0 then 1 else if s1 < 0 then -1 else 0))
    ∧ (∀ (price : ℚ) (e1 e5 s1 s5 : Option ℚ),
      e1 = none ∨ e5 = none ∨ s1 = none ∨ s5 = none →
      calculate_microstructure_score price e1 e5 s1 s5 = 0)
    ∧ calculate_microstructure_score 105 (some 102) (some 100) (some 1) (some 1) = 12
    ∧ calculate_microstructure_score 95 (some 98) (some 100) (some (-1)) (some (-1)) = -12
    ∧ calculate_microstructure_score 100 (some 100) (some 100) (some 0) (some 0) = 0 := by
  refine ⟨fun price e1 e5 s1 s5 => ?_, fun price e1 e5 s1 s5 => rfl,
    fun price e1 e5 s1 s5 h => ?_,
    by with_unfolding_all decide, by with_unfolding_all decide, by with_unfolding_all decide⟩
  · rcases e1 with _ | e1 <;> rcases e5 with _ | e5 <;> rcases s1 with _ | s1
      <;> rcases s5 with _ | s5 <;> simp only [calculate_microstructure_score]
      <;> constructor <;> (try split_ifs) <;> norm_num
  · rcases e1 with _ | e1 <;> rcases e5 with _ | e5 <;> rcases s1 with _ | s1
      <;> rcases s5 with _ | s5 <;> simp_all [calculate_microstructure_score]

/-- Witness for C5: an undefined slope input forces score 0. -/
theorem calculate_microstructure_score_c5_witness :
    ((some (5:ℚ) = none ∨ some (5:ℚ) = none ∨ (none : Option ℚ) = none ∨ some (5:ℚ) = none)
      ∧ calculate_microstructure_score 100 (some 5) (some 5) none (some 5) = 0) :=
  ⟨Or.inr (Or.inr (Or.inl rfl)),
   calculate_microstructure_score_c5.2.2.1 100 (some 5) (some 5) none (some 5)
     (Or.inr (Or.inr (Or.inl rfl)))⟩

/-! ## C6: put-call ratio -/

/-- C6 counterexample: with zero total call open interest the PCR is the
sentinel 100.0, and the day classification consumes that sentinel
literally — `classify_day_type` maps it to `BULLISH_TREND` (an
extreme-bullish signal), it is not treated as "undefined, skip". -/
theorem calculate_pcr_sentinel_literal_in_classification :
    calculate_pcr zeroCallChain = 100
    ∧ classify_day_type 105 100 90 (calculate_pcr zeroCallChain) = DayType.BULLISH_TREND := by
  with_unfolding_all decide

/-- C6 (amended): the PCR is total put OI over total call OI (worked
example `pcr = 2.0`), 1.0 on an empty/unavailable chain, and the
sentinel 100.0 when total call OI is zero; the sentinel is consumed
literally by day classification rather than being skipped. -/
theorem calculate_pcr_c6 :
    calculate_pcr examplePcrChain = 2
    ∧ calculate_pcr [] = 1
    ∧ (∀ chain, chain ≠ [] → total_call_oi chain = 0 → calculate_pcr chain = 100)
    ∧ (∀ chain, chain ≠ [] → total_call_oi chain ≠ 0 →
        calculate_pcr chain = total_put_oi chain / total_call_oi chain) := by
  refine ⟨by with_unfolding_all decide, rfl, fun chain h1 h2 => ?_, fun chain h1 h2 => ?_⟩
  · simp [calculate_pcr, h1, h2]
  · simp [calculate_pcr, h1, h2]

/-- Witness for C6 at the zero-call-OI chain. -/
theorem calculate_pcr_c6_witness :
    (zeroCallChain ≠ [] ∧ total_call_oi zeroCallChain = 0)
    ∧ calculate_pcr zeroCallChain = 100 :=
  ⟨⟨by with_unfolding_all decide, by with_unfolding_all decide⟩,
   calculate_pcr_c6.2.2.1 zeroCallChain (by with_unfolding_all decide)
     (by with_unfolding_all decide)⟩

/-! ## C8: probability score and the Hunter gate -/

/-- C8: the probability score is the weighted sum 20/30/30/20 of the four
boolean confirmations, so it always lies in
`{0,20,30,40,50,60,70,80,90,100}` with the spec's three worked examples;
the default threshold is 75; and `HunterTrade.execute` places no order
and changes nothing when the probability score is below the configured
threshold. -/
theorem probability_and_hunter_gate_c8 :
    (∀ a b c d : Bool,
      calculate_probability_score a b c d ∈ ({0,20,30,40,50,60,70,80,90,100} : Finset ℕ))
    ∧ calculate_probability_score true true true true = 100
    ∧ calculate_probability_score false false false false = 0
    ∧ calculate_probability_score true false true false = 50
    ∧ defaultConfig.PROBABILITY_THRESHOLD = 75
    ∧ (∀ env cfg st score price instrument_key option_chain hz pcr df timestamp,
        hunterProbability score pcr price hz < cfg.PROBABILITY_THRESHOLD →
        hunter_execute env cfg st score price instrument_key option_chain hz pcr df timestamp
          = st) := by
  refine ⟨by decide, rfl, rfl, rfl, rfl, ?_⟩
  intro env cfg st score price instrument_key option_chain hz pcr df timestamp h
  simp only [hunter_execute]
  by_cases h1 : |score| ≥ cfg.SCORE_THRESHOLD
  · rw [if_pos h1, if_pos h]
  · rw [if_neg h1]

/-- Witness for C8: probability 30 (only the `index_sync` placeholder
fires) is below the default threshold 75, so the Hunter template is a
no-op. -/
theorem probability_and_hunter_gate_c8_witness :
    hunterProbability 7 1 100 ⟨110, 105⟩ < defaultConfig.PROBABILITY_THRESHOLD
    ∧ hunter_execute env0 defaultConfig st0 7 100 "NSE_INDEX|Nifty 50" [] ⟨110, 105⟩ 1 [] 0
        = st0 :=
  ⟨by with_unfolding_all decide,
   probability_and_hunter_gate_c8.2.2.2.2.2 env0 defaultConfig st0 7 100 "NSE_INDEX|Nifty 50"
     [] ⟨110, 105⟩ 1 [] 0 (by with_unfolding_all decide)⟩

/-! ## C10: degenerate inputs of the pivot-volume detectors -/

/-- Under "no down-close candle in the prior window", the filtered
down-volume series of `detect_pocket_pivot_volume` is empty. -/
theorem filter_down_eq_nil {df : List Candle} {lookback : ℕ}
    (h : ∀ c ∈ prior_window df lookback, ¬(c.close < c.open_)) :
    (prior_window df lookback).filter (fun b => b.close < b.open_) = [] := by
  rw [List.filter_eq_nil_iff]
  intro a ha
  simpa using h a ha

/-- Under "no up-close candle in the prior window", the filtered
up-volume series of `detect_pivot_negative_volume` is empty. -/
theorem filter_up_eq_nil {df : List Candle} {lookback : ℕ}
    (h : ∀ c ∈ prior_window df lookback, ¬(c.close > c.open_)) :
    (prior_window df lookback).filter (fun b => b.close > b.open_) = [] := by
  rw [List.filter_eq_nil_iff]
  intro a ha
  simpa using h a ha

/-- C10: `detect_pocket_pivot_volume` returns `false` on fewer than
`lookback + 1` candles, and also whenever no candle of the prior
`lookback`-candle window closed below its open; symmetrically,
`detect_pivot_negative_volume` returns `false` with insufficient history
or when no prior candle closed above its open. -/
theorem pivot_detectors_false_cases_c10 :
    (∀ (df : List Candle) (lookback : ℕ), df.length < lookback + 1 →
      detect_pocket_pivot_volume df lookback = false)
    ∧ (∀ (df : List Candle) (lookback : ℕ),
      (∀ c ∈ prior_window df lookback, ¬(c.close < c.open_)) →
      detect_pocket_pivot_volume df lookback = false)
    ∧ (∀ (df : List Candle) (lookback : ℕ), df.length < lookback + 1 →
      detect_pivot_negative_volume df lookback = false)
    ∧ (∀ (df : List Candle) (lookback : ℕ),
      (∀ c ∈ prior_window df lookback, ¬(c.close > c.open_)) →
      detect_pivot_negative_volume df lookback = false) := by
  refine ⟨fun df lookback h => ?_, fun df lookback h => ?_,
    fun df lookback h => ?_, fun df lookback h => ?_⟩
  · simp [detect_pocket_pivot_volume, h]
  · unfold detect_pocket_pivot_volume
    split_ifs with h1
    · rfl
    · cases hlast : df.getLast? with
      | none => rfl
      | some latest_bar =>
        dsimp only
        split_ifs with h2
        · rfl
        · rw [filter_down_eq_nil h]
          rfl
  · simp [detect_pivot_negative_volume, h]
  · unfold detect_pivot_negative_volume
    split_ifs with h1
    · rfl
    · cases hlast : df.getLast? with
      | none => rfl
      | some latest_bar =>
        dsimp only
        split_ifs with h2
        · rfl
        · rw [filter_up_eq_nil h]
          rfl

/-- Witness for C10: ten candles are not enough, and a purely-up prior
window yields `false`. -/
theorem pivot_detectors_false_cases_c10_witness :
    (([] : List Candle).length < 10 + 1 ∧ detect_pocket_pivot_volume [] 10 = false)
    ∧ detect_pivot_negative_volume [] 10 = false :=
  ⟨⟨by decide, pivot_detectors_false_cases_c10.1 [] 10 (by decide)⟩,
   pivot_detectors_false_cases_c10.2.2.1 [] 10 (by decide)⟩

/-! ## C9: which candles the detectors read -/

/-- Dropping the last element commutes with `List.drop`. -/
theorem drop_dropLast {α : Type} (l : List α) (k : ℕ) :
    (l.drop k).dropLast = l.dropLast.drop k := by
  rw [List.dropLast_eq_take, List.dropLast_eq_take, List.drop_take, List.length_drop]
  congr 1
  omega

/-- Detector `detect_pocket_pivot_volume` (default lookback) only reads the last
11 candles. -/
theorem ppv_last_window (df : List Candle) (h : 11 ≤ df.length) :
    detect_pocket_pivot_volume df = detect_pocket_pivot_volume (df.drop (df.length - 11)) := by
  have hlen : (df.drop (df.length - 11)).length = 11 := by
    rw [List.length_drop]; omega
  have hlast : (df.drop (df.length - 11)).getLast? = df.getLast? := by
    rw [List.getLast?_drop, if_neg (by omega)]
  have hwin : prior_window (df.drop (df.length - 11)) 10 = prior_window df 10 := by
    unfold prior_window
    rw [drop_dropLast]
    have e1 : (List.drop (df.length - 11) df.dropLast).length - 10 = 0 := by
      rw [List.length_drop, List.length_dropLast]; omega
    rw [e1, List.drop_zero]
    congr 1
    rw [List.length_dropLast]
    omega
  unfold detect_pocket_pivot_volume
  rw [hlen, hlast, hwin, if_neg (show ¬df.length < 10 + 1 by omega),
    if_neg (show ¬(11:ℕ) < 10 + 1 by norm_num)]

/-- Detector `detect_pivot_negative_volume` (default lookback) only reads the last
11 candles. -/
theorem pnv_last_window (df : List Candle) (h : 11 ≤ df.length) :
    detect_pivot_negative_volume df = detect_pivot_negative_volume (df.drop (df.length - 11)) := by
  have hlen : (df.drop (df.length - 11)).length = 11 := by
    rw [List.length_drop]; omega
  have hlast : (df.drop (df.length - 11)).getLast? = df.getLast? := by
    rw [List.getLast?_drop, if_neg (by omega)]
  have hwin : prior_window (df.drop (df.length - 11)) 10 = prior_window df 10 := by
    unfold prior_window
    rw [drop_dropLast]
    have e1 : (List.drop (df.length - 11) df.dropLast).length - 10 = 0 := by
      rw [List.length_drop, List.length_dropLast]; omega
    rw [e1, List.drop_zero]
    congr 1
    rw [List.length_dropLast]
    omega
  unfold detect_pivot_negative_volume
  rw [hlen, hlast, hwin, if_neg (show ¬df.length < 10 + 1 by omega),
    if_neg (show ¬(11:ℕ) < 10 + 1 by norm_num)]

/-- A calm prior candle for the accumulation counterexample. -/
def accPrior : Candle := ⟨0, 100, 110, 100, 100, 10, 0⟩

/-- A narrow-range, high-volume up close (latest candle). -/
def accLatest : Candle := ⟨0, 100, 101, 100, 101, 20, 0⟩

/-- A huge-volume candle placed outside the last-11 window. -/
def accSpike : Candle := ⟨0, 100, 110, 100, 100, 1000, 0⟩

/-- Eleven candles on which `detect_accumulation` fires. -/
def dfAccShort : List Candle := List.replicate 10 accPrior ++ [accLatest]

/-- The same last eleven candles preceded by a volume spike. -/
def dfAccLong : List Candle := accSpike :: dfAccShort

/-- C9 counterexample: two candle sequences that agree on their last 11
candles on which `detect_accumulation` disagrees — the accumulation
detector averages over all prior candles, not the last `N+1`. -/
theorem detect_accumulation_not_window_local :
    dfAccShort.drop (dfAccShort.length - 11) = dfAccLong.drop (dfAccLong.length - 11)
    ∧ detect_accumulation dfAccShort = true
    ∧ detect_accumulation dfAccLong = false := by
  with_unfolding_all decide

/-- C9 (amended): the pocket-pivot and negative-pivot detectors are
functions of the last `N+1 = 11` candles only — any two sequences that
agree there get the same boolean results; accumulation and
distribution are not (their averages run over the whole prior
history). -/
theorem pivot_detectors_window_determined_c9 :
    ∀ df1 df2 : List Candle, 11 ≤ df1.length → 11 ≤ df2.length →
      df1.drop (df1.length - 11) = df2.drop (df2.length - 11) →
      detect_pocket_pivot_volume df1 = detect_pocket_pivot_volume df2
      ∧ detect_pivot_negative_volume df1 = detect_pivot_negative_volume df2 := by
  intro df1 df2 h1 h2 heq
  constructor
  · rw [ppv_last_window df1 h1, ppv_last_window df2 h2, heq]
  · rw [pnv_last_window df1 h1, pnv_last_window df2 h2, heq]

/-- Witness for C9 on the concrete pair of sequences sharing their last
11 candles. -/
theorem pivot_detectors_window_determined_c9_witness :
    detect_pocket_pivot_volume dfAccShort = detect_pocket_pivot_volume dfAccLong
    ∧ detect_pivot_negative_volume dfAccShort = detect_pivot_negative_volume dfAccLong :=
  pivot_detectors_window_determined_c9 dfAccShort dfAccLong
    (by with_unfolding_all decide) (by with_unfolding_all decide)
    (by with_unfolding_all decide)

/-! ## C3: stop-loss pricing -/

/-- A left fold of `min` is below its initial value. -/
theorem foldl_min_le_init (xs : List ℚ) (a : ℚ) : xs.foldl min a ≤ a := by
  induction xs generalizing a with
  | nil => simp
  | cons x xs ih => exact le_trans (ih (min a x)) (min_le_left a x)

/-- A left fold of `min` is below every list member. -/
theorem foldl_min_le_mem : ∀ (xs : List ℚ) (a x : ℚ), x ∈ xs → xs.foldl min a ≤ x
  | y :: ys, a, x, hx => by
    rcases List.mem_cons.mp hx with rfl | hmem
    · exact le_trans (foldl_min_le_init ys (min a x)) (min_le_right a x)
    · exact foldl_min_le_mem ys (min a y) x hmem

/-- Value `qmin` is a lower bound of the list. -/
theorem qmin_le_mem {xs : List ℚ} {x : ℚ} (hx : x ∈ xs) : qmin xs ≤ x := by
  cases xs with
  | nil => cases hx
  | cons y ys =>
    rcases List.mem_cons.mp hx with rfl | hmem
    · exact foldl_min_le_init ys x
    · exact foldl_min_le_mem ys y x hmem

/-- A left fold of `max` is above its initial value. -/
theorem foldl_max_ge_init (xs : List ℚ) (a : ℚ) : a ≤ xs.foldl max a := by
  induction xs generalizing a with
  | nil => simp
  | cons x xs ih => exact le_trans (le_max_left a x) (ih (max a x))

/-- A left fold of `max` is above every list member. -/
theorem foldl_max_ge_mem : ∀ (xs : List ℚ) (a x : ℚ), x ∈ xs → x ≤ xs.foldl max a
  | y :: ys, a, x, hx => by
    rcases List.mem_cons.mp hx with rfl | hmem
    · exact le_trans (le_max_right a x) (foldl_max_ge_init ys (max a x))
    · exact foldl_max_ge_mem ys (max a y) x hmem

/-- Value `qmax` is an upper bound of the list. -/
theorem qmax_ge_mem {xs : List ℚ} {x : ℚ} (hx : x ∈ xs) : x ≤ qmax xs := by
  cases xs with
  | nil => cases hx
  | cons y ys =>
    rcases List.mem_cons.mp hx with rfl | hmem
    · exact foldl_max_ge_init ys x
    · exact foldl_max_ge_mem ys y x hmem

/-- Every template multiplier (including the `.get` default) is positive. -/
theorem multipliers_pos (t : String) : 0 < multipliers t := by
  unfold multipliers
  split_ifs <;> norm_num

/-- The latest candle of a frame (junk default on an empty frame). -/
def lastCandleD (df : List Candle) : Candle := df.getLast?.getD default

/-- On a nonempty frame `getLast?` returns the latest candle. -/
theorem getLast?_eq_lastCandleD (df : List Candle) (h : df ≠ []) :
    df.getLast? = some (lastCandleD df) := by
  cases hL : df.getLast? with
  | none =>
    have h4 := List.getLast?_isSome.mpr h
    rw [hL] at h4
    cases h4
  | some c => simp [lastCandleD, hL]

/-- Membership from a successful `getLast?`. -/
theorem mem_of_getLast?_eq {α : Type} {l : List α} {a : α} (h : l.getLast? = some a) :
    a ∈ l := by
  cases l with
  | nil => cases h
  | cons b bs =>
    have hne : b :: bs ≠ [] := by simp
    rw [List.getLast?_eq_getLast _ hne] at h
    cases h
    exact List.getLast_mem hne

/-- The latest candle belongs to every last-`n` slice (`0 < n`). -/
theorem lastCandleD_mem_slice (df : List Candle) (h : df ≠ []) (n : ℕ) (hn : 0 < n) :
    lastCandleD df ∈ df.drop (df.length - n) := by
  have hlt : df.length - n < df.length := Nat.sub_lt (List.length_pos.mpr h) hn
  have h2 : (df.drop (df.length - n)).getLast? = df.getLast? := by
    rw [List.getLast?_drop, if_neg (by omega)]
  exact mem_of_getLast?_eq (h2.trans (getLast?_eq_lastCandleD df h))

set_option maxRecDepth 4000 in
/-- C3 counterexample: with a defined ATR of 0 (a perfectly flat market)
the Hunter stop equals the swing reference, which equals the entry
reference, so `stop < entry` fails for a BULL position even though the
swing is the minimum low of the last 20 candles. -/
theorem calculate_stop_loss_zero_atr_counterexample :
    (∀ c ∈ List.replicate 20 (⟨0, 100, 100, 100, 100, 1, 0⟩ : Candle),
      c.low ≤ c.close ∧ c.close ≤ c.high)
    ∧ find_recent_swing (List.replicate 20 (⟨0, 100, 100, 100, 100, 1, 0⟩ : Candle)) "BULL" = 100
    ∧ (lastCandleD (List.replicate 20 (⟨0, 100, 100, 100, 100, 1, 0⟩ : Candle))).close = 100
    ∧ calculate_stop_loss (some 0) "Hunter"
        (find_recent_swing (List.replicate 20 (⟨0, 100, 100, 100, 100, 1, 0⟩ : Candle)) "BULL")
        "BULL" 100 = 100
    ∧ ¬(calculate_stop_loss (some 0) "Hunter"
        (find_recent_swing (List.replicate 20 (⟨0, 100, 100, 100, 100, 1, 0⟩ : Candle)) "BULL")
        "BULL" 100 < 100) := by
  with_unfolding_all decide

/-- C3 (amended): the stop is `swing ∓ multiplier·ATR` with multipliers
Scalp 0.7 / Hunter 1.2 / "P2P Trend" 1.5 (subtract for BULL, add for
BEAR), the buffer falls back to 1% of the entry price when ATR is
undefined, and — provided the volatility buffer is positive (`ATR > 0`,
or a positive entry price in the NaN fallback) — the stop computed from
the minimum low (BULL) / maximum high (BEAR) of the last 20 candles is
strictly below/above the entry reference (the latest close);
`stop_loss(atr=10, Hunter, swing=100, BULL) = 88`. -/
theorem calculate_stop_loss_c3 :
    (∀ atr swing entry : ℚ,
      calculate_stop_loss (some atr) "Scalp" swing "BULL" entry = swing - 0.7 * atr
      ∧ calculate_stop_loss (some atr) "Hunter" swing "BULL" entry = swing - 1.2 * atr
      ∧ calculate_stop_loss (some atr) "P2P Trend" swing "BULL" entry = swing - 1.5 * atr
      ∧ calculate_stop_loss (some atr) "Scalp" swing "BEAR" entry = swing + 0.7 * atr
      ∧ calculate_stop_loss (some atr) "Hunter" swing "BEAR" entry = swing + 1.2 * atr
      ∧ calculate_stop_loss (some atr) "P2P Trend" swing "BEAR" entry = swing + 1.5 * atr)
    ∧ (∀ (t : String) (swing entry : ℚ),
      calculate_stop_loss none t swing "BULL" entry = swing - entry * 0.01
      ∧ calculate_stop_loss none t swing "BEAR" entry = swing + entry * 0.01)
    ∧ (∀ (df : List Candle) (t : String) (a : ℚ), df ≠ [] →
      (∀ c ∈ df, c.low ≤ c.close ∧ c.close ≤ c.high) →
      0 < a →
      calculate_stop_loss (some a) t (find_recent_swing df "BULL") "BULL"
          (lastCandleD df).close < (lastCandleD df).close
      ∧ (lastCandleD df).close
          < calculate_stop_loss (some a) t (find_recent_swing df "BEAR") "BEAR"
              (lastCandleD df).close)
    ∧ (∀ (df : List Candle) (t : String), df ≠ [] →
      (∀ c ∈ df, c.low ≤ c.close ∧ c.close ≤ c.high) →
      0 < (lastCandleD df).close →
      calculate_stop_loss none t (find_recent_swing df "BULL") "BULL"
          (lastCandleD df).close < (lastCandleD df).close
      ∧ (lastCandleD df).close
          < calculate_stop_loss none t (find_recent_swing df "BEAR") "BEAR"
              (lastCandleD df).close)
    ∧ calculate_stop_loss (some 10) "Hunter" 100 "BULL" 100 = 88 := by
  have key : ∀ (df : List Candle), df ≠ [] →
      (∀ c ∈ df, c.low ≤ c.close ∧ c.close ≤ c.high) →
      find_recent_swing df "BULL" ≤ (lastCandleD df).close
      ∧ (lastCandleD df).close ≤ find_recent_swing df "BEAR" := by
    intro df hdf hvalid
    have hmem20 : lastCandleD df ∈ df.drop (df.length - 20) :=
      lastCandleD_mem_slice df hdf 20 (by norm_num)
    have hmemdf : lastCandleD df ∈ df := List.mem_of_mem_drop hmem20
    have hvc := hvalid _ hmemdf
    constructor
    · have hswing : find_recent_swing df "BULL" ≤ (lastCandleD df).low := by
        unfold find_recent_swing
        rw [if_neg hdf, if_pos rfl]
        exact qmin_le_mem (List.mem_map_of_mem _ hmem20)
      linarith [hvc.1]
    · have hswing : (lastCandleD df).high ≤ find_recent_swing df "BEAR" := by
        unfold find_recent_swing
        rw [if_neg hdf, if_neg (by decide : ¬("BEAR" : String) = "BULL")]
        exact qmax_ge_mem (List.mem_map_of_mem _ hmem20)
      linarith [hvc.2]
  refine ⟨fun atr swing entry => ⟨rfl, rfl, rfl, rfl, rfl, rfl⟩,
    fun t swing entry => ⟨rfl, rfl⟩, ?_, ?_, by with_unfolding_all decide⟩
  · intro df t a hdf hvalid ha
    have hkey := key df hdf hvalid
    have hbuf : 0 < multipliers t * a := mul_pos (multipliers_pos t) ha
    have hB : calculate_stop_loss (some a) t (find_recent_swing df "BULL") "BULL"
        (lastCandleD df).close = find_recent_swing df "BULL" - multipliers t * a := rfl
    have hS : calculate_stop_loss (some a) t (find_recent_swing df "BEAR") "BEAR"
        (lastCandleD df).close = find_recent_swing df "BEAR" + multipliers t * a := rfl
    rw [hB, hS]
    constructor <;> linarith [hkey.1, hkey.2]
  · intro df t hdf hvalid hclose
    have hkey := key df hdf hvalid
    have hbuf : 0 < (lastCandleD df).close * 0.01 :=
      mul_pos hclose (by norm_num)
    have hB : calculate_stop_loss none t (find_recent_swing df "BULL") "BULL"
        (lastCandleD df).close
        = find_recent_swing df "BULL" - (lastCandleD df).close * 0.01 := rfl
    have hS : calculate_stop_loss none t (find_recent_swing df "BEAR") "BEAR"
        (lastCandleD df).close
        = find_recent_swing df "BEAR" + (lastCandleD df).close * 0.01 := rfl
    rw [hB, hS]
    constructor <;> linarith [hkey.1, hkey.2]

/-- Witness for C3 on a one-candle frame with a positive ATR. -/
theorem calculate_stop_loss_c3_witness :
    (([⟨0, 100, 101, 99, 100, 5, 0⟩] : List Candle) ≠ [] ∧ (0:ℚ) < 10)
    ∧ calculate_stop_loss (some 10) "Hunter"
        (find_recent_swing [⟨0, 100, 101, 99, 100, 5, 0⟩] "BULL") "BULL"
        (lastCandleD [⟨0, 100, 101, 99, 100, 5, 0⟩]).close
      < (lastCandleD [⟨0, 100, 101, 99, 100, 5, 0⟩]).close :=
  ⟨⟨by with_unfolding_all decide, by with_unfolding_all decide⟩,
   (calculate_stop_loss_c3.2.2.1 [⟨0, 100, 101, 99, 100, 5, 0⟩] "Hunter" 10
     (by with_unfolding_all decide) (by with_unfolding_all decide)
     (by with_unfolding_all decide)).1⟩

/-! ## C2: at most one open position per instrument -/

/-- C2: a decision cycle for an instrument that already has an entry in
the open-position map is a no-op: `execute_strategy` returns the bot
state unchanged (in particular no order is logged, and neither the
open-position map nor the trade list changes), enforcing at most one
open position per instrument. -/
theorem execute_strategy_skip_when_open_c2 :
    ∀ (env : Env) (cfg : Config) (st : BotState) (instrument_key : String)
      (df : List Candle) (timestamp : ℕ) (option_chain? : Option (List StrikeData)),
      (dictGet st.open_positions instrument_key).isSome = true →
      execute_strategy env cfg st instrument_key df timestamp option_chain? = st := by
  intro env cfg st instrument_key df timestamp oc h
  by_cases h1 : df = []
  · simp [execute_strategy, h1]
  · simp [execute_strategy, h1, h]

/-- An open BULL position held by the bot, used by C1 and C2 witnesses. -/
def posC1 : BotPosition := ⟨1, "OPT1", "BUY", 100, 95, "BULL"⟩

/-- The order manager's mirror of `posC1` in paper mode. -/
def paperPosC1 : PaperPosition := ⟨1, "OPT1", "BUY", 100, 10, 95, "BULL"⟩

/-- A bot state holding `posC1` open for NIFTY. -/
def stC1 : BotState :=
  { hunter_zone := []
    open_positions := [("NSE_INDEX|Nifty 50", posC1)]
    latest_volume_cache := []
    om := ⟨[("OPT1", paperPosC1)], [], [], 2⟩ }

/-- Witness for C2: a cycle on an instrument with an open position
changes nothing. -/
theorem execute_strategy_skip_when_open_c2_witness :
    (dictGet stC1.open_positions "NSE_INDEX|Nifty 50").isSome = true
    ∧ execute_strategy env0 defaultConfig stC1 "NSE_INDEX|Nifty 50"
        [⟨0, 1, 1, 1, 1, 1, 0⟩] 0 none = stC1 :=
  ⟨by with_unfolding_all decide,
   execute_strategy_skip_when_open_c2 env0 defaultConfig stC1 "NSE_INDEX|Nifty 50"
     [⟨0, 1, 1, 1, 1, 1, 0⟩] 0 none (by with_unfolding_all decide)⟩

/-! ## C1: stop-loss monitoring -/

/-- C1 (code bug): at a price crossing the stop of an open BULL position,
`monitor_stop_loss` issues the market exit order and removes the
position from the open set, but it never calls
`close_paper_position`, so the trade list is unchanged — no `Trade` is
recorded for the stop-loss exit (instead, in paper mode, the SELL order
books a spurious reversed paper position under the option token).
Above the stop nothing fires. -/
theorem monitor_stop_loss_no_trade_recorded :
    (posC1.direction = "BULL" ∧ (94:ℚ) ≤ posC1.stop_loss_price)
    ∧ (monitor_stop_loss env0 defaultConfig stC1 "NSE_INDEX|Nifty 50" posC1 94 500).om.orders_log.length
        = stC1.om.orders_log.length + 1
    ∧ dictGet (monitor_stop_loss env0 defaultConfig stC1 "NSE_INDEX|Nifty 50" posC1 94 500).open_positions
        "NSE_INDEX|Nifty 50" = none
    ∧ (monitor_stop_loss env0 defaultConfig stC1 "NSE_INDEX|Nifty 50" posC1 94 500).om.paper_trades
        = stC1.om.paper_trades
    ∧ (dictGet (monitor_stop_loss env0 defaultConfig stC1 "NSE_INDEX|Nifty 50" posC1 94 500).om.paper_positions
        "OPT1").map (·.direction) = some "BEAR"
    ∧ monitor_stop_loss env0 defaultConfig stC1 "NSE_INDEX|Nifty 50" posC1 96 500 = stC1 := by
  with_unfolding_all decide

/-! ## C7: volume-pattern confirmation gate -/

/-- C7: with volume analysis enabled, a cycle whose microstructure score
is positive but lacks PocketPivotVolume/Accumulation confirmation — or
negative but lacks PivotNegativeVolume/Distribution confirmation —
performs no trade: `execute_strategy` returns the state unchanged (no
order logged, no position opened); the skip is an ordinary return, not
an error. -/
theorem vpa_gate_blocks_unconfirmed_trades_c7 :
    ∀ (env : Env) (cfg : Config) (st : BotState) (instrument_key : String)
      (df : List Candle) (timestamp : ℕ) (option_chain? : Option (List StrikeData)),
      cfg.USE_ADVANCED_VOLUME_ANALYSIS = true →
      (pipelineScore env st instrument_key df > 0 →
        detect_pocket_pivot_volume (effectiveDf env st instrument_key df) = false →
        detect_accumulation (effectiveDf env st instrument_key df) = false →
        execute_strategy env cfg st instrument_key df timestamp option_chain? = st)
      ∧ (pipelineScore env st instrument_key df < 0 →
        detect_pivot_negative_volume (effectiveDf env st instrument_key df) = false →
        detect_distribution (effectiveDf env st instrument_key df) = false →
        execute_strategy env cfg st instrument_key df timestamp option_chain? = st) := by
  intro env cfg st instrument_key df timestamp oc hU
  constructor
  · intro hs hd1 hd2
    unfold execute_strategy
    unfold pipelineScore at hs
    dsimp only at hs ⊢
    repeat' first
      | rfl
      | exact absurd hU (by assumption)
      | (rename_i hgate; exact absurd (Or.inl (And.intro hs (by simp [hd1, hd2]))) hgate)
      | split
  · intro hs hd1 hd2
    unfold execute_strategy
    unfold pipelineScore at hs
    dsimp only at hs ⊢
    repeat' first
      | rfl
      | exact absurd hU (by assumption)
      | (rename_i hgate; exact absurd (Or.inr (And.intro hs (by simp [hd1, hd2]))) hgate)
      | split

/-- One synthetic candle per 5-minute bin with a steadily rising close
(open = close, so no up-close patterns can fire). -/
def c7candle (t : ℕ) : Candle :=
  ⟨5 * t, 100 + t, 100 + t, 100 + t, 100 + t, 1, 0⟩

/-- 21 rising candles: enough history for both EVWMA horizons, producing
a strongly positive score without volume confirmation. -/
def dfC7 : List Candle := (List.range 21).map c7candle

/-- Environment for the C7 witness: only the NIFTY expiry lookup
succeeds. -/
def envC7 : Env :=
  { instrument_to_symbol_map := fun _ => none
    expiry_dates := fun s => if s = "NIFTY" then some "2025-01-30" else none
    future_of := fun _ => none
    get_option_chain := fun _ _ => []
    live_order_id := none }

/-- Bot state for the C7 witness: a hunter zone for NIFTY, nothing open. -/
def stC7 : BotState :=
  { hunter_zone := [("NSE_INDEX|Nifty 50", ⟨110, 105⟩)]
    open_positions := []
    latest_volume_cache := []
    om := ⟨[], [], [], 0⟩ }

/-- A nonempty option chain for the C7 witness. -/
def chainC7 : List StrikeData := [⟨0, none, none⟩]

set_option maxRecDepth 8000 in
/-- Witness for C7: a concrete cycle with score 12 and no confirming
volume pattern is a no-op. -/
theorem vpa_gate_blocks_unconfirmed_trades_c7_witness :
    pipelineScore envC7 stC7 "NSE_INDEX|Nifty 50" dfC7 > 0
    ∧ execute_strategy envC7 defaultConfig stC7 "NSE_INDEX|Nifty 50" dfC7 999 (some chainC7)
        = stC7 :=
  ⟨by with_unfolding_all decide,
   (vpa_gate_blocks_unconfirmed_trades_c7 envC7 defaultConfig stC7 "NSE_INDEX|Nifty 50"
       dfC7 999 (some chainC7) rfl).1
     (by with_unfolding_all decide) (by with_unfolding_all decide)
     (by with_unfolding_all decide)⟩

end TradingBot
